import Mathlib

/-!
Shallow embedding of the MeloTTS HTTP facade (src/app.py): the per-language
model cache, the startup warmup routine, the voice-listing endpoint and the
synthesis endpoint. The external MeloTTS engine is a parameter of every
operation; its observable invocations (model loads and synthesis calls) are
recorded as an event list so that claims about "the engine is invoked
exactly once / never" can be stated.
-/

namespace CardinalTTS

/-- Embedding of Python str.upper restricted to the ASCII range (language
codes and speaker names handled by this service are ASCII strings). -/
def pyUpper (s : String) : String := ⟨s.data.map Char.toUpper⟩

/-- A loaded TTS model handle (melo.api.TTS instance): its speaker table
model.hps.data.spk2id, kept insertion-ordered like a Python dict, and its
tts_to_file synthesis routine, which returns the WAV bytes written to the
output buffer or raises. The speed argument is Optional because the handler
forwards body.speed verbatim, which may be None. -/
structure Model where
  spk2id : List (String × Nat)
  tts : String → Nat → Option Rat → Except String (List Nat)

/-- The external engine constructor TTS(language=lang, device=DEVICE): given
a language code and a device string it produces a loaded model or raises. -/
abbrev Engine := String → String → Except String Model

/-- The process-wide caches _models and _speakers, insertion-ordered
association lists mirroring Python dicts. -/
structure St where
  models : List (String × Model)
  speakers : List (String × List (String × Nat))

/-- Environment-derived settings read at module import time. -/
structure Config where
  DEFAULT_LANGUAGE : String
  DEFAULT_SPEAKER : String
  DEFAULT_SPEED : Rat
  PRELOAD_LANGUAGES : List String
  DEVICE : String

/-- An HTTPException raised by a handler: status code and detail message. -/
structure HError where
  status : Nat
  detail : String
deriving DecidableEq

/-- Observable invocations of the external engine. -/
inductive Event where
  | load (lang : String)
  | tts (text : String) (spkId : Nat) (speed : Option Rat)
deriving DecidableEq

/-- An HTTP response produced by the synthesis endpoint: a streamed body
with media type and Content-Disposition header, or an error status with
detail. -/
inductive Response where
  | ok (body : List Nat) (mediaType : String) (contentDisposition : String)
  | err (status : Nat) (detail : String)
deriving DecidableEq

/-- Outcome of running a handler: an HTTP response, or an uncaught Python
exception escaping the handler. -/
inductive Outcome where
  | resp (r : Response)
  | crash (msg : String)
deriving DecidableEq

/-- A validated request body (class SynthesizeIn). Optional fields hold
none exactly when the JSON carried an explicit null. -/
structure SynthesizeIn where
  text : String
  language : Option String
  speaker : Option String
  speed : Option Rat

/-- A JSON field of a request body: absent, explicit null, or a value. -/
inductive JsonField (α : Type) where
  | missing
  | null
  | val (a : α)

/-- The raw JSON body of a POST /synthesize request. -/
structure RawSynthesizeIn where
  text : JsonField String
  language : JsonField String
  speaker : JsonField String
  speed : JsonField Rat

/-- Pydantic validation of SynthesizeIn: text is required with length in
[1, 2000]; language and speaker are Optional with configured defaults
(explicit null yields None); speed is Optional with configured default and
bounds 0.5 <= speed <= 2.0 checked only on a present value. -/
def validate (cfg : Config) (r : RawSynthesizeIn) : Except String SynthesizeIn :=
  match r.text with
  | JsonField.missing => Except.error "field required: text"
  | JsonField.null => Except.error "none is not an allowed value: text"
  | JsonField.val t =>
    if t.length < 1 then Except.error "ensure this value has at least 1 characters: text"
    else if 2000 < t.length then Except.error "ensure this value has at most 2000 characters: text"
    else
      let language : Option String :=
        match r.language with
        | JsonField.missing => some cfg.DEFAULT_LANGUAGE
        | JsonField.null => none
        | JsonField.val s => some s
      let speaker : Option String :=
        match r.speaker with
        | JsonField.missing => some cfg.DEFAULT_SPEAKER
        | JsonField.null => none
        | JsonField.val s => some s
      match r.speed with
      | JsonField.missing => Except.ok ⟨t, language, speaker, some cfg.DEFAULT_SPEED⟩
      | JsonField.null => Except.ok ⟨t, language, speaker, none⟩
      | JsonField.val sp =>
        if sp < (1 : Rat) / 2 then Except.error "ensure this value is greater than or equal to 0.5: speed"
        else if (2 : Rat) < sp then Except.error "ensure this value is less than or equal to 2: speed"
        else Except.ok ⟨t, language, speaker, some sp⟩

/-- load_language (src/app.py lines 31-41): uppercase the code, return the
cached model on a hit; otherwise invoke the engine, convert an engine
exception into HTTPException 400, and on success store the model and its
speaker table under the normalized code. Returns the result, the updated
caches, and the engine invocations performed. -/
def load_language (cfg : Config) (engine : Engine) (st : St) (lang0 : String) :
    Except HError Model × St × List Event :=
  let lang := pyUpper lang0
  match st.models.lookup lang with
  | some m => (Except.ok m, st, [])
  | none =>
    match engine lang cfg.DEVICE with
    | Except.error e =>
      (Except.error ⟨400, "Failed to load language '" ++ lang ++ "': " ++ e⟩, st,
       [Event.load lang])
    | Except.ok model =>
      (Except.ok model,
       ⟨st.models ++ [(lang, model)], st.speakers ++ [(lang, model.spk2id)]⟩,
       [Event.load lang])

/-- Python truthiness of the prime_spk variable (None and the empty string
are falsy). -/
def strTruthy : Option String → Bool
  | none => false
  | some s => !(s == "")

/-- The prime_spk computation of warmup (src/app.py lines 50-56): prefer the
configured default speaker when it is a key of spk_map, otherwise (tested by
Python truthiness, so an empty-string pick is overridden) take the first key
of spk_map when spk_map is non-empty. -/
def warmup_prime_spk (cfg : Config) (spk_map : List (String × Nat)) : Option String :=
  let prime1 : Option String :=
    if (spk_map.lookup cfg.DEFAULT_SPEAKER).isSome then some cfg.DEFAULT_SPEAKER else none
  if !strTruthy prime1 && !spk_map.isEmpty then
    match spk_map with
    | [] => prime1
    | (k, _) :: _ => some k
  else prime1

/-- One iteration of the warmup loop (src/app.py lines 46-63) for a single
preload entry: load the language (a load failure propagates and aborts
startup), fetch the speaker table from the cache under the UN-normalized
entry, pick prime_spk, and when prime_spk is truthy perform one throwaway
synthesis whose outcome (including a KeyError on the table lookup) is
swallowed by the enclosing try/except. -/
def warmup_one (cfg : Config) (engine : Engine) (st : St) (lang : String) :
    Except HError St × List Event :=
  match load_language cfg engine st lang with
  | (Except.error e, _, ev) => (Except.error e, ev)
  | (Except.ok _, st2, ev) =>
    let spk_map := (st2.speakers.lookup lang).getD []
    match warmup_prime_spk cfg spk_map with
    | none => (Except.ok st2, ev)
    | some s =>
      if s == "" then (Except.ok st2, ev)
      else
        match spk_map.lookup s with
        | some i => (Except.ok st2, ev ++ [Event.tts "warmup" i (some cfg.DEFAULT_SPEED)])
        | none => (Except.ok st2, ev)

/-- The warmup loop over a list of preload entries. -/
def warmup_list (cfg : Config) (engine : Engine) (st : St) :
    List String → Except HError St × List Event
  | [] => (Except.ok st, [])
  | lang :: rest =>
    match warmup_one cfg engine st lang with
    | (Except.error e, ev) => (Except.error e, ev)
    | (Except.ok st2, ev) =>
      let r := warmup_list cfg engine st2 rest
      (r.1, ev ++ r.2)

/-- The startup warmup routine (src/app.py lines 43-63). -/
def warmup (cfg : Config) (engine : Engine) (st : St) : Except HError St × List Event :=
  warmup_list cfg engine st cfg.PRELOAD_LANGUAGES

/-- GET /healthz (src/app.py lines 65-67). -/
def healthz : String := "ok"

/-- The sorted() call of the voices handler: Python sorts strings by code
point, which is the lexicographic linear order on String. -/
def sortStrings (l : List String) : List String := List.insertionSort (· ≤ ·) l

/-- GET /voices (src/app.py lines 69-76): force-load the default language
(a failure propagates as its HTTPException), then map every cached language
to the sorted list of its speaker names. -/
def voices (cfg : Config) (engine : Engine) (st : St) :
    Except HError (List (String × List String)) × St × List Event :=
  match load_language cfg engine st cfg.DEFAULT_LANGUAGE with
  | (Except.error e, st2, ev) => (Except.error e, st2, ev)
  | (Except.ok _, st2, ev) =>
    (Except.ok (st2.speakers.map (fun p => (p.1, sortStrings (p.2.map Prod.fst)))), st2, ev)

/-- Speaker resolution of the synthesis handler (src/app.py lines 83-89):
keep the requested speaker when it is a key of spk_map (a None request is
never a key), otherwise fall back to the first key of spk_map, or none when
spk_map is empty (the 400 "no speakers" case). -/
def resolve_speaker (spk_map : List (String × Nat)) (requested : Option String) :
    Option String :=
  let present : Bool :=
    match requested with
    | some s => (spk_map.lookup s).isSome
    | none => false
  if present then requested
  else
    match spk_map with
    | [] => none
    | (k, _) :: _ => some k

/-- POST /synthesize handler body (src/app.py lines 78-100), after pydantic
validation. body.language = none makes Python call None.upper() and the
AttributeError escapes the handler uncaught. -/
def synthesize (cfg : Config) (engine : Engine) (st : St) (body : SynthesizeIn) :
    Outcome × St × List Event :=
  match body.language with
  | none =>
    (Outcome.crash "AttributeError: 'NoneType' object has no attribute 'upper'", st, [])
  | some lang0 =>
    let lang := pyUpper lang0
    match load_language cfg engine st lang with
    | (Except.error e, st2, ev) => (Outcome.resp (Response.err e.status e.detail), st2, ev)
    | (Except.ok model, st2, ev) =>
      let spk_map := (st2.speakers.lookup lang).getD []
      match resolve_speaker spk_map body.speaker with
      | none =>
        (Outcome.resp (Response.err 400 ("No speakers available for language '" ++ lang ++ "'")),
         st2, ev)
      | some name =>
        match spk_map.lookup name with
        | none => (Outcome.crash "KeyError", st2, ev)
        | some i =>
          match model.tts body.text i body.speed with
          | Except.error e =>
            (Outcome.resp (Response.err 500 ("TTS failed: " ++ e)), st2,
             ev ++ [Event.tts body.text i body.speed])
          | Except.ok bytes =>
            (Outcome.resp (Response.ok bytes "audio/wav" "inline; filename=\"speech.wav\""), st2,
             ev ++ [Event.tts body.text i body.speed])

/-- POST /synthesize including FastAPI request validation: a validation
failure answers 422 before the handler (and hence any model load) runs. -/
def post_synthesize (cfg : Config) (engine : Engine) (st : St) (r : RawSynthesizeIn) :
    Outcome × St × List Event :=
  match validate cfg r with
  | Except.error d => (Outcome.resp (Response.err 422 d), st, [])
  | Except.ok body => synthesize cfg engine st body

/-- The documented cache invariant: _models and _speakers hold exactly the
same language keys, in the same insertion order. -/
def cachePaired (st : St) : Prop := st.models.map Prod.fst = st.speakers.map Prod.fst

/-- Set-level reading of the invariant: a language is cached in _models iff
it is cached in _speakers. -/
def sameKeySet (st : St) : Prop :=
  ∀ lang : String, (st.models.lookup lang).isSome ↔ (st.speakers.lookup lang).isSome

/-- A concrete stub model used by the witnesses: two speakers and a tts
routine answering fixed WAV bytes. -/
def mdlX : Model :=
  ⟨[("EN-US", 0), ("EN-BR", 1)], fun _ _ _ => Except.ok [82, 73, 70, 70]⟩

/-- A stub engine that loads mdlX for language "EN" and raises otherwise. -/
def engX : Engine := fun lang _dev =>
  if lang == "EN" then Except.ok mdlX else Except.error "unsupported"

/-- The default configuration of the service. -/
def cfgX : Config := ⟨"EN", "EN-US", 1, ["EN"], "auto"⟩

/-- A cache state in which "EN" is already loaded with mdlX. -/
def stX : St := ⟨[("EN", mdlX)], [("EN", mdlX.spk2id)]⟩

/-- A configuration whose preload list holds the lowercase entry "en". -/
def cfgCE : Config := ⟨"EN", "EN-US", 1, ["en"], "auto"⟩

/-- A stub model with an empty speaker table. -/
def mdlE : Model := ⟨[], fun _ _ _ => Except.error "no speaker"⟩

/-- A cache state in which "EN" is loaded but has no speakers. -/
def stE : St := ⟨[("EN", mdlE)], [("EN", [])]⟩

/-- A validated request asking for a speaker that no language has. -/
def bodyGhost : SynthesizeIn := ⟨"hello", some "EN", some "GHOST", some 1⟩

/-- A raw request whose language field is an explicit JSON null. -/
def rNull : RawSynthesizeIn :=
  ⟨JsonField.val "hi", JsonField.null, JsonField.missing, JsonField.missing⟩

/-- The body rNull validates to under cfgX. -/
def bodyNull : SynthesizeIn := ⟨"hi", none, some "EN-US", some 1⟩

/-- A raw request with empty text. -/
def rEmptyText : RawSynthesizeIn :=
  ⟨JsonField.val "", JsonField.missing, JsonField.missing, JsonField.missing⟩

/-- A speaker table not containing the default speaker "EN-US". -/
def tblBR : List (String × Nat) := [("EN-BR", 1)]

/-- A validated request naming the existing speaker "EN-US". -/
def bodyHello : SynthesizeIn := ⟨"hello", some "EN", some "EN-US", some 1⟩

example : pyUpper "en" = "EN" := rfl
example : List.lookup "EN" [("EN", (1 : Nat))] = some 1 := rfl
example : (load_language cfgX engX ⟨[], []⟩ "en").2.2 = [Event.load "EN"] := rfl

/-- Association lists with the same key sequence answer lookups with the
same success/failure pattern. -/
theorem lookup_isSome_congr {β γ : Type} (l1 : List (String × β)) (l2 : List (String × γ))
    (h : l1.map Prod.fst = l2.map Prod.fst) (a : String) :
    (l1.lookup a).isSome = (l2.lookup a).isSome := by
  induction l1 generalizing l2 with
  | nil =>
    cases l2 with
    | nil => rfl
    | cons q t2 => simp at h
  | cons p t ih =>
    obtain ⟨k, b⟩ := p
    cases l2 with
    | nil => simp at h
    | cons q t2 =>
      obtain ⟨k2, c⟩ := q
      simp only [List.map_cons, List.cons.injEq] at h
      obtain ⟨h1, h2⟩ := h
      subst h1
      simp only [List.lookup]
      cases hb : a == k
      · simpa using ih t2 h2
      · simp

/-- A cache hit returns the cached model with no state change and no engine
invocation. -/
theorem load_language_hit (cfg : Config) (engine : Engine) (st : St) (lang : String)
    (m : Model) (h : st.models.lookup (pyUpper lang) = some m) :
    load_language cfg engine st lang = (Except.ok m, st, []) := by
  simp [load_language, h]

/-- A cache miss with a succeeding engine stores the model and its table
under the normalized code. -/
theorem load_language_miss_ok (cfg : Config) (engine : Engine) (st : St) (lang : String)
    (model : Model)
    (hmiss : st.models.lookup (pyUpper lang) = none)
    (hok : engine (pyUpper lang) cfg.DEVICE = Except.ok model) :
    load_language cfg engine st lang =
      (Except.ok model,
       ⟨st.models ++ [(pyUpper lang, model)], st.speakers ++ [(pyUpper lang, model.spk2id)]⟩,
       [Event.load (pyUpper lang)]) := by
  simp [load_language, hmiss, hok]

/-- load_language preserves the key pairing of the two caches. -/
theorem load_language_paired (cfg : Config) (engine : Engine) (st : St) (lang : String)
    (h : cachePaired st) : cachePaired (load_language cfg engine st lang).2.1 := by
  unfold load_language
  cases hlk : st.models.lookup (pyUpper lang) with
  | some m => simpa [hlk]
  | none =>
    cases heng : engine (pyUpper lang) cfg.DEVICE with
    | error e => simpa [hlk, heng]
    | ok model =>
      simp only [hlk, heng]
      simp only [cachePaired] at h ⊢
      simp [h]

/-- C2: model loading is idempotent and case-insensitive: the language code
is uppercased before the cache lookup; a cached code is answered from the
cache with no engine invocation and no cache mutation; in particular loading
"en" and then "EN" performs exactly one engine load and returns the same
handle both times. -/
theorem c2_load_idempotent_case_insensitive (cfg : Config) (engine : Engine)
    (st : St) (lang : String) (m : Model)
    (h : st.models.lookup (pyUpper lang) = some m) :
    load_language cfg engine st lang = (Except.ok m, st, []) ∧
    (∀ model : Model, engine "EN" cfg.DEVICE = Except.ok model →
      load_language cfg engine ⟨[], []⟩ "en" =
        (Except.ok model, ⟨[("EN", model)], [("EN", model.spk2id)]⟩, [Event.load "EN"]) ∧
      load_language cfg engine ⟨[("EN", model)], [("EN", model.spk2id)]⟩ "EN" =
        (Except.ok model, ⟨[("EN", model)], [("EN", model.spk2id)]⟩, [])) := by
  refine ⟨load_language_hit cfg engine st lang m h, ?_⟩
  intro model hok
  exact ⟨load_language_miss_ok cfg engine ⟨[], []⟩ "en" model rfl hok,
         load_language_hit cfg engine ⟨[("EN", model)], [("EN", model.spk2id)]⟩ "EN" model rfl⟩

/-- Witness for C2 on the stub engine: loading "en" into an empty cache and
then "EN" performs one engine load and returns the same handle. -/
theorem c2_witness :
    load_language cfgX engX ⟨[], []⟩ "en" =
      (Except.ok mdlX, ⟨[("EN", mdlX)], [("EN", mdlX.spk2id)]⟩, [Event.load "EN"]) ∧
    load_language cfgX engX ⟨[("EN", mdlX)], [("EN", mdlX.spk2id)]⟩ "EN" =
      (Except.ok mdlX, ⟨[("EN", mdlX)], [("EN", mdlX.spk2id)]⟩, []) :=
  (c2_load_idempotent_case_insensitive cfgX engX stX "EN" mdlX rfl).2 mdlX rfl

/-- C3: when the engine raises on an uncached language, load_language fails
with HTTPException 400 embedding the cause, the caches are returned exactly
as before the call, and (given the pairing invariant) neither cache holds an
entry for that language. -/
theorem c3_load_failure_atomic (cfg : Config) (engine : Engine) (st : St)
    (lang : String) (e : String)
    (hmiss : st.models.lookup (pyUpper lang) = none)
    (hpair : cachePaired st)
    (hfail : engine (pyUpper lang) cfg.DEVICE = Except.error e) :
    load_language cfg engine st lang =
      (Except.error ⟨400, "Failed to load language '" ++ pyUpper lang ++ "': " ++ e⟩,
       st, [Event.load (pyUpper lang)]) ∧
    st.models.lookup (pyUpper lang) = none ∧
    st.speakers.lookup (pyUpper lang) = none := by
  refine ⟨by simp [load_language, hmiss, hfail], hmiss, ?_⟩
  have hc := lookup_isSome_congr st.models st.speakers hpair (pyUpper lang)
  rw [hmiss] at hc
  cases hx : st.speakers.lookup (pyUpper lang) with
  | none => rfl
  | some v => rw [hx] at hc; simp at hc

/-- Witness for C3: loading "xx" on the stub engine fails with the 400
message and leaves the empty caches empty. -/
theorem c3_witness :
    load_language cfgX engX ⟨[], []⟩ "xx" =
      (Except.error ⟨400, "Failed to load language '" ++ pyUpper "xx" ++ "': " ++ "unsupported"⟩,
       (⟨[], []⟩ : St), [Event.load (pyUpper "xx")]) ∧
    (⟨[], []⟩ : St).models.lookup (pyUpper "xx") = none ∧
    (⟨[], []⟩ : St).speakers.lookup (pyUpper "xx") = none :=
  c3_load_failure_atomic cfgX engX ⟨[], []⟩ "xx" "unsupported" rfl rfl rfl

/-- The pairing invariant implies the set-level key equality. -/
theorem paired_sameKeySet (st : St) (h : cachePaired st) : sameKeySet st := by
  intro lang
  have hc := lookup_isSome_congr st.models st.speakers h lang
  rw [hc]

/-- One warmup iteration preserves the cache pairing. -/
theorem warmup_one_paired (cfg : Config) (engine : Engine) (st : St) (lang : String)
    (st2 : St) (ev : List Event) (h : cachePaired st)
    (hw : warmup_one cfg engine st lang = (Except.ok st2, ev)) : cachePaired st2 := by
  have hp := load_language_paired cfg engine st lang h
  unfold warmup_one at hw
  rcases hll : load_language cfg engine st lang with ⟨r, stl, evl⟩
  rw [hll] at hw hp
  cases r with
  | error e => simp at hw
  | ok m =>
    simp only at hw hp
    split at hw
    all_goals try split at hw
    all_goals try split at hw
    all_goals
      simp only [Prod.mk.injEq, Except.ok.injEq] at hw
    all_goals exact hw.1 ▸ hp

/-- The warmup loop preserves the cache pairing. -/
theorem warmup_list_paired (cfg : Config) (engine : Engine) :
    ∀ (langs : List String) (st st2 : St) (ev : List Event),
      cachePaired st → warmup_list cfg engine st langs = (Except.ok st2, ev) →
      cachePaired st2
  | [], st, st2, ev, h, hw => by
    simp only [warmup_list, Prod.mk.injEq, Except.ok.injEq] at hw
    exact hw.1 ▸ h
  | lang :: rest, st, st2, ev, h, hw => by
    unfold warmup_list at hw
    rcases h1 : warmup_one cfg engine st lang with ⟨r1, ev1⟩
    rw [h1] at hw
    cases r1 with
    | error e => simp at hw
    | ok stm =>
      have hm : cachePaired stm := warmup_one_paired cfg engine st lang stm ev1 h h1
      simp only [Prod.mk.injEq] at hw
      exact warmup_list_paired cfg engine rest stm st2 (warmup_list cfg engine stm rest).2 hm
        (by rw [← hw.1])

/-- The synthesis handler preserves the cache pairing. -/
theorem synthesize_paired (cfg : Config) (engine : Engine) (st : St) (body : SynthesizeIn)
    (h : cachePaired st) : cachePaired (synthesize cfg engine st body).2.1 := by
  cases hbl : body.language with
  | none => simpa [synthesize, hbl] using h
  | some lang0 =>
    have hp := load_language_paired cfg engine st (pyUpper lang0) h
    rcases hll : load_language cfg engine st (pyUpper lang0) with ⟨r, stl, evl⟩
    rw [hll] at hp
    cases r with
    | error e => simpa [synthesize, hbl, hll] using hp
    | ok m =>
      simp only [synthesize, hbl, hll]
      split
      · exact hp
      · split
        · exact hp
        · split <;> exact hp

/-- The voices handler preserves the cache pairing. -/
theorem voices_paired (cfg : Config) (engine : Engine) (st : St)
    (h : cachePaired st) : cachePaired (voices cfg engine st).2.1 := by
  unfold voices
  have hp := load_language_paired cfg engine st cfg.DEFAULT_LANGUAGE h
  rcases hll : load_language cfg engine st cfg.DEFAULT_LANGUAGE with ⟨r, stl, evl⟩
  rw [hll] at hp
  cases r <;> simpa using hp

/-- C8: starting from caches satisfying the pairing invariant, every
operation (load_language, warmup, voices, synthesize) leaves the model cache
and the speaker-table cache with the same language keys, both as key
sequences and as key sets (a language is in one cache iff in the other). -/
theorem c8_cache_pairing (cfg : Config) (engine : Engine) (st : St)
    (h : cachePaired st) :
    (∀ lang, cachePaired (load_language cfg engine st lang).2.1 ∧
      sameKeySet (load_language cfg engine st lang).2.1) ∧
    (∀ st2 ev, warmup cfg engine st = (Except.ok st2, ev) →
      cachePaired st2 ∧ sameKeySet st2) ∧
    (cachePaired (voices cfg engine st).2.1 ∧ sameKeySet (voices cfg engine st).2.1) ∧
    (∀ body, cachePaired (synthesize cfg engine st body).2.1 ∧
      sameKeySet (synthesize cfg engine st body).2.1) := by
  refine ⟨fun lang => ?_, fun st2 ev hw => ?_, ?_, fun body => ?_⟩
  · have hp := load_language_paired cfg engine st lang h
    exact ⟨hp, paired_sameKeySet _ hp⟩
  · have hp := warmup_list_paired cfg engine cfg.PRELOAD_LANGUAGES st st2 ev h hw
    exact ⟨hp, paired_sameKeySet _ hp⟩
  · have hp := voices_paired cfg engine st h
    exact ⟨hp, paired_sameKeySet _ hp⟩
  · have hp := synthesize_paired cfg engine st body h
    exact ⟨hp, paired_sameKeySet _ hp⟩

/-- Witness for C8 at the preloaded default state: the pairing holds after a
load of a fresh language. -/
theorem c8_witness :
    cachePaired (load_language cfgX engX stX "es").2.1 ∧
    sameKeySet (load_language cfgX engX stX "es").2.1 :=
  (c8_cache_pairing cfgX engX stX rfl).1 "es"

/-- C4: a request whose text is empty or longer than 2000 characters, or
whose speed lies outside [0.5, 2.0], is answered 422 by validation before
the handler runs: the engine is never invoked (no events) and the caches
are unchanged. -/
theorem c4_validation_precedes_load (cfg : Config) (engine : Engine) (st : St)
    (r : RawSynthesizeIn)
    (h : (∃ t, r.text = JsonField.val t ∧ (t.length = 0 ∨ 2000 < t.length)) ∨
         (∃ sp, r.speed = JsonField.val sp ∧ (sp < (1 : Rat) / 2 ∨ (2 : Rat) < sp))) :
    ∃ d, post_synthesize cfg engine st r = (Outcome.resp (Response.err 422 d), st, []) := by
  have hv : ∃ d, validate cfg r = Except.error d := by
    rcases h with ⟨t, ht, h0 | h1⟩ | ⟨sp, hsp, hout⟩
    · exact ⟨"ensure this value has at least 1 characters: text",
        by simp [validate, ht, h0]⟩
    · refine ⟨"ensure this value has at most 2000 characters: text", ?_⟩
      simp only [validate, ht]
      rw [if_neg (by omega), if_pos h1]
    · rcases hT : r.text with _ | _ | t
      · exact ⟨"field required: text", by simp [validate, hT]⟩
      · exact ⟨"none is not an allowed value: text", by simp [validate, hT]⟩
      · by_cases hl0 : t.length < 1
        · exact ⟨_, by simp only [validate, hT]; rw [if_pos hl0]⟩
        · by_cases hl1 : 2000 < t.length
          · exact ⟨_, by simp only [validate, hT]; rw [if_neg hl0, if_pos hl1]⟩
          · rcases hout with hlt | hgt
            · refine ⟨"ensure this value is greater than or equal to 0.5: speed", ?_⟩
              simp only [validate, hT]
              rw [if_neg hl0, if_neg hl1]
              simp only [hsp]
              rw [if_pos hlt]
            · refine ⟨"ensure this value is less than or equal to 2: speed", ?_⟩
              simp only [validate, hT]
              rw [if_neg hl0, if_neg hl1]
              simp only [hsp]
              rw [if_neg (by linarith), if_pos hgt]
  obtain ⟨d, hd⟩ := hv
  exact ⟨d, by simp [post_synthesize, hd]⟩

/-- Witness for C4: empty text is answered 422 with no engine invocation. -/
theorem c4_witness :
    ∃ d, post_synthesize cfgX engX stX rEmptyText =
      (Outcome.resp (Response.err 422 d), stX, []) :=
  c4_validation_precedes_load cfgX engX stX rEmptyText
    (Or.inl ⟨"", rfl, Or.inl rfl⟩)

/-- A successful validation fills the optional fields from the raw JSON:
the configured default when the field is missing, none when the field is an
explicit null, and the given value otherwise. -/
theorem validate_ok_shape (cfg : Config) (r : RawSynthesizeIn) (body : SynthesizeIn)
    (hv : validate cfg r = Except.ok body) :
    body.language = (match r.language with
                     | JsonField.missing => some cfg.DEFAULT_LANGUAGE
                     | JsonField.null => none
                     | JsonField.val s => some s) ∧
    body.speaker = (match r.speaker with
                    | JsonField.missing => some cfg.DEFAULT_SPEAKER
                    | JsonField.null => none
                    | JsonField.val s => some s) ∧
    body.speed = (match r.speed with
                  | JsonField.missing => some cfg.DEFAULT_SPEED
                  | JsonField.null => none
                  | JsonField.val sp => some sp) := by
  rcases hT : r.text with _ | _ | t <;>
    rcases hL : r.language with _ | _ | ls <;>
    rcases hP : r.speaker with _ | _ | ss <;>
    rcases hS : r.speed with _ | _ | sp <;>
    simp only [validate, hT, hL, hP, hS] at hv ⊢
  all_goals repeat' split at hv
  all_goals
    first
      | (simp only [Except.ok.injEq] at hv
         subst hv
         exact ⟨rfl, rfl, rfl⟩)
      | exact Except.noConfusion hv

/-- C9: the optional fields accept an explicit JSON null without default
substitution; a request whose language is an explicit null passes validation
with language = none and the handler then crashes with an uncaught
AttributeError from None.upper(), producing no HTTP error response at all. -/
theorem c9_null_optional_fields (cfg : Config) (engine : Engine) (st : St)
    (r : RawSynthesizeIn) (body : SynthesizeIn)
    (hv : validate cfg r = Except.ok body) :
    (r.language = JsonField.null → body.language = none) ∧
    (r.speaker = JsonField.null → body.speaker = none) ∧
    (r.speed = JsonField.null → body.speed = none) ∧
    (r.language = JsonField.null →
      post_synthesize cfg engine st r =
        (Outcome.crash "AttributeError: 'NoneType' object has no attribute 'upper'", st, [])) := by
  obtain ⟨hL, hS, hP⟩ := validate_ok_shape cfg r body hv
  refine ⟨fun hn => by rw [hL, hn], fun hn => by rw [hS, hn], fun hn => by rw [hP, hn],
          fun hn => ?_⟩
  have hbl : body.language = none := by rw [hL, hn]
  simp [post_synthesize, hv, synthesize, hbl]

/-- Witness for C9: an explicit null language crashes the handler. -/
theorem c9_witness :
    post_synthesize cfgX engX stX rNull =
      (Outcome.crash "AttributeError: 'NoneType' object has no attribute 'upper'", stX, []) :=
  (c9_null_optional_fields cfgX engX stX rNull bodyNull rfl).2.2.2 rfl

/-- C10: the "arbitrary" fallback speaker is deterministic. When the
requested speaker is absent from a non-empty table the synthesis handler's
resolution always substitutes the first key in the table's iteration order
(resolution is a pure function of table and request, so two identical
requests against the same cache state resolve identically), and warmup's
prime_spk pick follows the same first-key rule when the default speaker is
absent from the table. -/
theorem c10_deterministic_fallback (cfg : Config) (tbl : List (String × Nat))
    (requested : Option String) (k : String) (i : Nat) (rest : List (String × Nat))
    (hmap : tbl = (k, i) :: rest)
    (habs : ∀ s, requested = some s → tbl.lookup s = none)
    (hdef : tbl.lookup cfg.DEFAULT_SPEAKER = none) :
    resolve_speaker tbl requested = some k ∧
    warmup_prime_spk cfg tbl = some k ∧
    (∀ requested2, (∀ s, requested2 = some s → tbl.lookup s = none) →
      resolve_speaker tbl requested2 = resolve_speaker tbl requested) := by
  subst hmap
  have hres : ∀ req : Option String,
      (∀ s, req = some s → ((k, i) :: rest).lookup s = none) →
      resolve_speaker ((k, i) :: rest) req = some k := by
    intro req hab
    cases req with
    | none => simp [resolve_speaker]
    | some s => simp [resolve_speaker, hab s rfl]
  refine ⟨hres requested habs, ?_,
    fun r2 h2 => by rw [hres r2 h2, hres requested habs]⟩
  simp [warmup_prime_spk, hdef, strTruthy]

/-- Witness for C10: the absent speaker "GHOST" and warmup's pick both
resolve to the first table key "EN-BR". -/
theorem c10_witness :
    resolve_speaker tblBR (some "GHOST") = some "EN-BR" ∧
    warmup_prime_spk cfgX tblBR = some "EN-BR" :=
  ⟨(c10_deterministic_fallback cfgX tblBR (some "GHOST") "EN-BR" 1 [] rfl
      (fun s hs => by cases hs; rfl) rfl).1,
   (c10_deterministic_fallback cfgX tblBR (some "GHOST") "EN-BR" 1 [] rfl
      (fun s hs => by cases hs; rfl) rfl).2.1⟩

/-- C5 (amended): per-language warmup behavior. After a successful load the
speaker table is fetched from the speaker cache under the preload entry
VERBATIM (not uppercased, so a non-uppercase entry finds an empty table);
warmup then attempts exactly one throwaway synthesis (text "warmup",
configured default speed) with the configured default speaker when present
in that fetched table, else with the first speaker of the fetched table
(provided the chosen name is non-empty — Python truthiness), and none when
the fetched table is empty; the result is ok unconditionally — no
hypothesis on the engine's synthesis outcome — so a synthesis failure never
propagates. For a singleton preload list the whole startup routine equals
this per-language body. -/
theorem c5_warmup_amended (cfg : Config) (engine : Engine) (st : St) (lang : String)
    (model : Model) (st2 : St) (lev : List Event) (tbl : List (String × Nat))
    (hload : load_language cfg engine st lang = (Except.ok model, st2, lev))
    (htbl : (st2.speakers.lookup lang).getD [] = tbl)
    (hd : cfg.DEFAULT_SPEAKER ≠ "") :
    ((warmup_one cfg engine st lang).1 = Except.ok st2) ∧
    (tbl = [] → (warmup_one cfg engine st lang).2 = lev) ∧
    (∀ i, tbl.lookup cfg.DEFAULT_SPEAKER = some i →
      (warmup_one cfg engine st lang).2 =
        lev ++ [Event.tts "warmup" i (some cfg.DEFAULT_SPEED)]) ∧
    (∀ k i rest, tbl.lookup cfg.DEFAULT_SPEAKER = none → tbl = (k, i) :: rest → k ≠ "" →
      (warmup_one cfg engine st lang).2 =
        lev ++ [Event.tts "warmup" i (some cfg.DEFAULT_SPEED)]) ∧
    (cfg.PRELOAD_LANGUAGES = [lang] →
      warmup cfg engine st = warmup_one cfg engine st lang) := by
  refine ⟨?_, ?_, ?_, ?_, ?_⟩
  · simp only [warmup_one, hload, htbl]
    split
    · rfl
    · split
      · rfl
      · split <;> rfl
  · intro hnil
    have hps : warmup_prime_spk cfg tbl = none := by
      simp [hnil, warmup_prime_spk, strTruthy]
    simp [warmup_one, hload, htbl, hps]
  · intro i hi
    have hps : warmup_prime_spk cfg tbl = some cfg.DEFAULT_SPEAKER := by
      simp [warmup_prime_spk, hi, strTruthy, beq_iff_eq, hd]
    simp [warmup_one, hload, htbl, hps, hi, beq_iff_eq, hd]
  · intro k i rest h0 h1 hk
    subst h1
    have hps : warmup_prime_spk cfg ((k, i) :: rest) = some k := by
      simp [warmup_prime_spk, h0, strTruthy]
    simp [warmup_one, hload, htbl, hps, beq_iff_eq, hk, List.lookup]
  · intro hpre
    simp only [warmup, hpre]
    rcases hwo : warmup_one cfg engine st lang with ⟨r, ev⟩
    unfold warmup_list
    rw [hwo]
    cases r with
    | error e => rfl
    | ok stx => simp [warmup_list]

/-- Counterexample to C5 as stated: with preload list ["en"], the loaded
language "EN" ends up with a non-empty speaker table that even contains the
configured default speaker, yet warmup performs no throwaway synthesis at
all (the trace holds the load event only), because the table is fetched
from the cache under the verbatim lowercase entry. -/
theorem c5_counterexample :
    (warmup cfgCE engX ⟨[], []⟩).2 = [Event.load "EN"] ∧
    (warmup cfgCE engX ⟨[], []⟩).1 = Except.ok stX ∧
    stX.speakers.lookup "EN" = some [("EN-US", 0), ("EN-BR", 1)] ∧
    cfgCE.PRELOAD_LANGUAGES = ["en"] ∧ cfgCE.DEFAULT_SPEAKER = "EN-US" :=
  ⟨rfl, rfl, rfl, rfl, rfl⟩

/-- Witness for the amended C5: warming up "EN" from an empty cache loads
once and performs exactly one throwaway synthesis with the default speaker's
id. -/
theorem c5_witness :
    (warmup_one cfgX engX ⟨[], []⟩ "EN").1 = Except.ok stX ∧
    (warmup_one cfgX engX ⟨[], []⟩ "EN").2 =
      [Event.load "EN"] ++ [Event.tts "warmup" 0 (some cfgX.DEFAULT_SPEED)] :=
  ⟨(c5_warmup_amended cfgX engX ⟨[], []⟩ "EN" mdlX stX [Event.load "EN"]
      [("EN-US", 0), ("EN-BR", 1)] rfl rfl (by decide)).1,
   (c5_warmup_amended cfgX engX ⟨[], []⟩ "EN" mdlX stX [Event.load "EN"]
      [("EN-US", 0), ("EN-BR", 1)] rfl rfl (by decide)).2.2.1 0 rfl⟩

/-- C1: speaker resolution in the synthesis endpoint. With the language
loaded and the requested speaker absent from the resolved language's table:
when the table is empty the response is exactly the 400 "no speakers
available" client error; when the table is non-empty the handler silently
substitutes the first speaker of the table and answers 200 with the audio
when the engine succeeds on it (500 when the engine fails); and the 400
"no speakers available" response occurs iff the table is empty. -/
theorem c1_speaker_fallback (cfg : Config) (engine : Engine) (st : St)
    (body : SynthesizeIn) (l : String) (model : Model) (st2 : St) (ev : List Event)
    (tbl : List (String × Nat))
    (hl : body.language = some l)
    (hload : load_language cfg engine st (pyUpper l) = (Except.ok model, st2, ev))
    (htbl : (st2.speakers.lookup (pyUpper l)).getD [] = tbl)
    (habs : ∀ s, body.speaker = some s → tbl.lookup s = none) :
    (tbl = [] → (synthesize cfg engine st body).1 =
      Outcome.resp (Response.err 400
        ("No speakers available for language '" ++ pyUpper l ++ "'"))) ∧
    (∀ k i rest, tbl = (k, i) :: rest →
      (∀ bytes, model.tts body.text i body.speed = Except.ok bytes →
        (synthesize cfg engine st body).1 =
          Outcome.resp (Response.ok bytes "audio/wav" "inline; filename=\"speech.wav\"")) ∧
      (∀ e, model.tts body.text i body.speed = Except.error e →
        (synthesize cfg engine st body).1 =
          Outcome.resp (Response.err 500 ("TTS failed: " ++ e)))) ∧
    ((synthesize cfg engine st body).1 =
      Outcome.resp (Response.err 400
        ("No speakers available for language '" ++ pyUpper l ++ "'")) ↔ tbl = []) := by
  rcases tbl with _ | ⟨⟨k0, i0⟩, rest0⟩
  · have hres : resolve_speaker [] body.speaker = none := by
      cases body.speaker <;> simp [resolve_speaker]
    have hout : (synthesize cfg engine st body).1 =
        Outcome.resp (Response.err 400
          ("No speakers available for language '" ++ pyUpper l ++ "'")) := by
      simp only [synthesize, hl, hload, htbl, hres]
    exact ⟨fun _ => hout, fun k i rest h => List.noConfusion h,
           ⟨fun _ => rfl, fun _ => hout⟩⟩
  · have hres : resolve_speaker ((k0, i0) :: rest0) body.speaker = some k0 := by
      cases hbs : body.speaker with
      | none => simp [resolve_speaker]
      | some s => simp [resolve_speaker, habs s hbs]
    have hlk : ((k0, i0) :: rest0).lookup k0 = some i0 := by simp [List.lookup]
    have hok : ∀ bytes, model.tts body.text i0 body.speed = Except.ok bytes →
        (synthesize cfg engine st body).1 =
          Outcome.resp (Response.ok bytes "audio/wav" "inline; filename=\"speech.wav\"") := by
      intro bytes hb
      simp only [synthesize, hl, hload, htbl, hres, hlk, hb]
    have herr : ∀ e, model.tts body.text i0 body.speed = Except.error e →
        (synthesize cfg engine st body).1 =
          Outcome.resp (Response.err 500 ("TTS failed: " ++ e)) := by
      intro e hb
      simp only [synthesize, hl, hload, htbl, hres, hlk, hb]
    refine ⟨fun h => List.noConfusion h, ?_, ?_⟩
    · intro k i rest hline
      obtain ⟨⟨hk, hi⟩, hrest⟩ : ((k0 = k ∧ i0 = i) ∧ rest0 = rest) := by
        simpa using hline
      subst hk
      subst hi
      exact ⟨hok, herr⟩
    · constructor
      · intro hcontra
        rcases hts : model.tts body.text i0 body.speed with e | bytes
        · rw [herr e hts] at hcontra
          simp at hcontra
        · rw [hok bytes hts] at hcontra
          simp at hcontra
      · intro h
        exact List.noConfusion h

/-- Witness for C1: requesting the absent speaker "GHOST" still answers 200
with the stub audio, synthesized with the first table speaker. -/
theorem c1_witness :
    (synthesize cfgX engX stX bodyGhost).1 =
      Outcome.resp (Response.ok [82, 73, 70, 70] "audio/wav"
        "inline; filename=\"speech.wav\"") :=
  ((c1_speaker_fallback cfgX engX stX bodyGhost "EN" mdlX stX [] mdlX.spk2id rfl rfl rfl
      (fun s hs => by cases hs; rfl)).2.1 "EN-US" 0 [("EN-BR", 1)] rfl).1
    [82, 73, 70, 70] rfl

/-- C7: on engine success the synthesis endpoint answers 200 with exactly
the bytes the engine wrote into the in-memory buffer, media type
"audio/wav", and Content-Disposition inline with filename "speech.wav". -/
theorem c7_success_response (cfg : Config) (engine : Engine) (st : St)
    (body : SynthesizeIn) (l : String) (model : Model) (st2 : St) (ev : List Event)
    (tbl : List (String × Nat)) (name : String) (i : Nat) (bytes : List Nat)
    (hl : body.language = some l)
    (hload : load_language cfg engine st (pyUpper l) = (Except.ok model, st2, ev))
    (htbl : (st2.speakers.lookup (pyUpper l)).getD [] = tbl)
    (hres : resolve_speaker tbl body.speaker = some name)
    (hid : tbl.lookup name = some i)
    (htts : model.tts body.text i body.speed = Except.ok bytes) :
    synthesize cfg engine st body =
      (Outcome.resp (Response.ok bytes "audio/wav" "inline; filename=\"speech.wav\""),
       st2, ev ++ [Event.tts body.text i body.speed]) := by
  simp only [synthesize, hl, hload, htbl, hres, hid, htts]

/-- Witness for C7: the scenario of the spec, a request for "EN"/"EN-US"
against the stub engine returning the fixed WAV bytes. -/
theorem c7_witness :
    synthesize cfgX engX stX bodyHello =
      (Outcome.resp (Response.ok [82, 73, 70, 70] "audio/wav"
        "inline; filename=\"speech.wav\""),
       stX, [] ++ [Event.tts "hello" 0 (some 1)]) :=
  c7_success_response cfgX engX stX bodyHello "EN" mdlX stX [] mdlX.spk2id "EN-US" 0
    [82, 73, 70, 70] rfl rfl rfl rfl rfl rfl

/-- C6: the voices endpoint first forces the default language to be loaded
and then maps every cached language code to its speaker names sorted in
lexicographic order; under the pairing invariant the result is never empty
on a successful first call. -/
theorem c6_voices_listing (cfg : Config) (engine : Engine) (st : St)
    (m : Model) (st2 : St) (ev : List Event)
    (hpair : cachePaired st)
    (hload : load_language cfg engine st cfg.DEFAULT_LANGUAGE = (Except.ok m, st2, ev)) :
    voices cfg engine st =
      (Except.ok (st2.speakers.map (fun p => (p.1, sortStrings (p.2.map Prod.fst)))),
       st2, ev) ∧
    (∀ l : List String, (sortStrings l).Sorted (· ≤ ·) ∧ List.Perm (sortStrings l) l) ∧
    st2.speakers ≠ [] := by
  refine ⟨by simp [voices, hload],
    fun l => ⟨List.sorted_insertionSort _ l, List.perm_insertionSort _ l⟩, ?_⟩
  simp only [load_language] at hload
  cases hlk : st.models.lookup (pyUpper cfg.DEFAULT_LANGUAGE) with
  | some m2 =>
    rw [hlk] at hload
    simp only [Prod.mk.injEq, Except.ok.injEq] at hload
    obtain ⟨-, h2, -⟩ := hload
    subst h2
    intro hnil
    have hm : st.models.map Prod.fst = [] := by rw [hpair, hnil]; rfl
    have hn : st.models = [] := List.map_eq_nil_iff.mp hm
    rw [hn] at hlk
    simp at hlk
  | none =>
    rw [hlk] at hload
    cases heng : engine (pyUpper cfg.DEFAULT_LANGUAGE) cfg.DEVICE with
    | error e =>
      rw [heng] at hload
      exact absurd hload (by simp)
    | ok model =>
      rw [heng] at hload
      simp only [Prod.mk.injEq, Except.ok.injEq] at hload
      obtain ⟨-, h2, -⟩ := hload
      intro hnil
      rw [← h2] at hnil
      simp at hnil

/-- Witness for C6 at the preloaded state: the listing maps "EN" to its
sorted speaker names and is non-empty. -/
theorem c6_witness :
    voices cfgX engX stX =
      (Except.ok (stX.speakers.map (fun p => (p.1, sortStrings (p.2.map Prod.fst)))),
       stX, []) ∧
    stX.speakers ≠ [] :=
  ⟨(c6_voices_listing cfgX engX stX mdlX stX [] rfl rfl).1,
   (c6_voices_listing cfgX engX stX mdlX stX [] rfl rfl).2.2⟩

end CardinalTTS
